import Mathlib

/-!
Model of `alertbot.py`, a health-monitoring daemon for a Lighthouse node.

JSON values are modelled by `JVal`, with JSON floats as exact rationals: the
program never does float arithmetic, it only compares values that come from
decimal literals, where the rational order agrees with the float order.
The dynamic Python operations the script uses (`>` comparison, `int(...)`,
truthiness, subscripting) are modelled by total Lean functions returning
`Except String`, raising where Python raises; the exception strings stand in
for the Python exception messages — only their presence and routing matter.

Each check function mutates a shared `errors` list and may raise, so a check
is modelled as `Config → Env → List String → List String × Option String`:
the final content of the caller's list together with the raised exception, if
any (mutations performed before a raise survive it, as in Python).
-/

inductive JVal where
  | jnull
  | jbool (b : Bool)
  | jint (n : Int)
  | jfloat (q : ℚ)
  | jstr (s : String)
  | jobj (fields : List (String × JVal))

open JVal

/-- Line 10: `HTTP_TIMEOUT_SECONDS = 10.0` (bounds each request; no claim
depends on timing, the constant is kept for completeness). -/
def HTTP_TIMEOUT_SECONDS : ℚ := 10

/-- The configuration values used by the program.  `configparser` yields raw
strings, so every field is a `String`; the code converts some of them with
`int(...)` at use sites (and notably does not convert `sync_tolerance`). -/
structure Config where
  endpoint : String
  sync_tolerance : String
  min_peer_count : String
  max_peer_count : String
  api_token : String
  chat_id : String
  poll_interval_seconds : String

/-- An HTTP response as seen through the `requests` library. -/
structure HttpResp where
  status_code : Nat
  body : JVal

/-- `requests.Response.ok` is true exactly when the status code is below 400. -/
def HttpResp.ok (r : HttpResp) : Bool := decide (r.status_code < 400)

/-- The three endpoint results of one poll cycle.  An `Except.error` value is a
transport failure: `requests.get` raised (timeout, connection error, ...). -/
structure Env where
  health : Except String HttpResp
  syncing : Except String HttpResp
  peers : Except String HttpResp

/-- Python subscripting `v[key]` on a JSON-decoded value: `KeyError` when the
key is absent, `TypeError` when the value is not a dict. -/
def pyIndex : JVal → String → Except String JVal
  | jobj fields, key =>
    match fields.lookup key with
    | some v => Except.ok v
    | none => Except.error ("KeyError: " ++ key)
  | _, _ => Except.error "TypeError: value is not subscriptable"

/-- Python truthiness of a JSON-decoded value. -/
def pyTruthy : JVal → Bool
  | jnull => false
  | jbool b => b
  | jint n => decide (n ≠ 0)
  | jfloat q => decide (q ≠ 0)
  | jstr s => !s.isEmpty
  | jobj fields => !fields.isEmpty

/-- Python string comparison: lexicographic by code point. -/
def charListLt : List Char → List Char → Bool
  | [], [] => false
  | [], _ :: _ => true
  | _ :: _, [] => false
  | a :: as, b :: bs => if a < b then true else if b < a then false else charListLt as bs

/-- Numeric view of a JSON value for Python comparisons (`bool` is an `int`
subtype in Python, so `True`/`False` compare as 1/0). -/
def toNumQ : JVal → Option ℚ
  | jint n => some (n : ℚ)
  | jfloat q => some q
  | jbool b => some (if b then 1 else 0)
  | _ => none

/-- Python `a > b`: numeric comparison when both operands are numbers,
lexicographic comparison when both are strings, `TypeError` otherwise
(in particular for an `int` compared with a `str`). -/
def pyGt (a b : JVal) : Except String Bool :=
  match toNumQ a, toNumQ b with
  | some x, some y => Except.ok (decide (y < x))
  | _, _ =>
    match a, b with
    | jstr s, jstr t => Except.ok (charListLt t.data s.data)
    | _, _ => Except.error "TypeError: unsupported operand types for >"

/-- Base-10 digits to a number; `none` when empty or a non-digit appears. -/
def parseDigits (cs : List Char) : Option Nat :=
  if cs.isEmpty then none
  else
    cs.foldl
      (fun acc c =>
        acc.bind (fun n => if c.isDigit then some (n * 10 + (c.toNat - 48)) else none))
      (some 0)

/-- Python `int(s)` on a string: surrounding whitespace is stripped, an
optional sign is read, then the literal is parsed in base 10; `ValueError` on
anything else. -/
def pyIntStr (s : String) : Except String Int :=
  let cs := ((s.data.dropWhile Char.isWhitespace).reverse.dropWhile
    Char.isWhitespace).reverse
  let num : Option Int :=
    match cs with
    | '-' :: rest => (parseDigits rest).map (fun n => -(n : Int))
    | '+' :: rest => (parseDigits rest).map (fun n => (n : Int))
    | rest => (parseDigits rest).map (fun n => (n : Int))
  match num with
  | some n => Except.ok n
  | none => Except.error ("ValueError: invalid literal for int() with base 10: " ++ s)

/-- Python `int(v)` on a JSON-decoded value: identity on ints, truncation
toward zero on floats, parse on strings, `TypeError` otherwise. -/
def pyInt : JVal → Except String Int
  | jint n => Except.ok n
  | jbool b => Except.ok (if b then 1 else 0)
  | jfloat q => Except.ok (if q < 0 then -Rat.floor (-q) else Rat.floor q)
  | jstr s => pyIntStr s
  | _ => Except.error "TypeError: int() argument must be a string or a number"

/-- Decimal digits of the fractional part of a non-negative rational below 1
(fuelled; JSON float literals have finite decimal expansions). -/
def fracDigits : Nat → ℚ → String
  | 0, _ => ""
  | Nat.succ k, q =>
    if q = 0 then ""
    else toString (Rat.floor (q * 10)) ++ fracDigits k (q * 10 - Rat.floor (q * 10))

/-- Rendering of a non-negative float value, as Python `str` does:
`str(97.3) = "97.3"`, `str(97.0) = "97.0"`. -/
def pyFloatReprNonneg (q : ℚ) : String :=
  let ip := Rat.floor q
  let fp := q - ip
  if fp = 0 then toString ip ++ ".0"
  else toString ip ++ "." ++ fracDigits 30 fp

/-- Rendering of a float value, as Python `str` does. -/
def pyFloatRepr (q : ℚ) : String :=
  if q < 0 then "-" ++ pyFloatReprNonneg (-q) else pyFloatReprNonneg q

/-- Python `s.startswith(p)`: code-point prefix test. -/
def pyStartswith (s p : String) : Bool := p.data.isPrefixOf s.data

/-- Python `s.endswith(p)`: code-point suffix test. -/
def pyEndswith (s p : String) : Bool := p.data.isSuffixOf s.data

/-- Python `str(v)` / f-string interpolation of a JSON-decoded value.  No
message in the program ever interpolates a dict, so a placeholder rendering
suffices there. -/
def pyStr : JVal → String
  | jnull => "None"
  | jbool b => if b then "True" else "False"
  | jint n => toString n
  | jfloat q => pyFloatRepr q
  | jstr s => s
  | jobj _ => "<dict>"

/-- Lines 21-34, `check_lighthouse_health(config, errors)`.  Line 22
immediately rebinds the `errors` parameter to a fresh local list, so every
`append` below targets that local list and the caller's list is never
changed; the function can still raise (missing key, bad comparison), which
propagates with the caller's list untouched. -/
def check_lighthouse_health (cfg : Config) (env : Env) (errors : List String) :
    List String × Option String :=
  match env.health with
  | Except.error e => (errors, some e)
  | Except.ok lh_health =>
    if lh_health.ok then
      match (pyIndex lh_health.body "data").bind (fun health_json =>
              (pyIndex health_json "sys_virt_mem_percent").bind (fun mem_percent =>
                (pyGt mem_percent (jfloat 95)).map (fun gt => (mem_percent, gt)))) with
      | Except.error e => (errors, some e)
      | Except.ok (mem_percent, gt) =>
        let _local_errors : List String :=
          if gt then ["Memory usage at " ++ pyStr mem_percent ++ "%"] else []
        (errors, none)
    else
      let _local_errors : List String :=
        ["Error from /lighthouse/health: " ++ toString lh_health.status_code]
      (errors, none)

/-- Lines 36-55, `check_sync_status(config, errors)`.  On a 200 response the
four fields are read first (lines 45-49, any `KeyError` raises before the
branching), then the condition `is_syncing or sync_distance > sync_tolerance`
is evaluated with Python short-circuiting; note `sync_tolerance` is the raw
configuration string, never converted with `int(...)`. -/
def check_sync_status (cfg : Config) (env : Env) (errors : List String) :
    List String × Option String :=
  match env.syncing with
  | Except.error e => (errors, some e)
  | Except.ok node_status =>
    if node_status.status_code ≠ 200 then
      (errors ++ ["Lighthouse not synced: " ++ toString node_status.status_code], none)
    else
      match pyIndex node_status.body "data" with
      | Except.error e => (errors, some e)
      | Except.ok status =>
        match pyIndex status "sync_distance" with
        | Except.error e => (errors, some e)
        | Except.ok sync_distance =>
          match pyIndex status "is_syncing" with
          | Except.error e => (errors, some e)
          | Except.ok is_syncing =>
            match pyIndex status "is_optimistic" with
            | Except.error e => (errors, some e)
            | Except.ok is_optimistic =>
              match pyIndex status "el_offline" with
              | Except.error e => (errors, some e)
              | Except.ok el_offline =>
                match (if pyTruthy is_syncing then Except.ok true
                       else pyGt sync_distance (jstr cfg.sync_tolerance)) with
                | Except.error e => (errors, some e)
                | Except.ok cond =>
                  if cond then
                    (errors ++ ["Lighthouse syncing: " ++ pyStr sync_distance ++
                      " slots from head"], none)
                  else if pyTruthy is_optimistic then
                    (errors ++ ["Lighthouse synced optimistically"], none)
                  else if pyTruthy el_offline then
                    (errors ++ ["Execution node is offline or erroring"], none)
                  else (errors, none)

/-- Lines 57-71, `check_peer_count(config, errors)`.  On a successful response
the connected count and both bounds go through `int(...)`.  On a non-success
response, line 71 interpolates `lh_health.status_code`, but `lh_health` is not
defined in this function, so Python raises `NameError` instead of appending
the intended endpoint-error string. -/
def check_peer_count (cfg : Config) (env : Env) (errors : List String) :
    List String × Option String :=
  match env.peers with
  | Except.error e => (errors, some e)
  | Except.ok resp =>
    if resp.ok then
      match pyIndex resp.body "data" with
      | Except.error e => (errors, some e)
      | Except.ok data =>
        match pyIndex data "connected" with
        | Except.error e => (errors, some e)
        | Except.ok connected =>
          match pyInt connected with
          | Except.error e => (errors, some e)
          | Except.ok peer_count =>
            match pyIntStr cfg.min_peer_count with
            | Except.error e => (errors, some e)
            | Except.ok min_peer_count =>
              match pyIntStr cfg.max_peer_count with
              | Except.error e => (errors, some e)
              | Except.ok max_peer_count =>
                if peer_count < min_peer_count ∨ peer_count > max_peer_count then
                  (errors ++ ["Bad peer count: " ++ toString peer_count], none)
                else (errors, none)
    else
      (errors, some "NameError: name lh_health is not defined")

/-- Lines 73-76, `check_for_errors(config, errors)`: the three checks in their
fixed order; an exception aborts the remaining checks but the list mutations
already performed survive. -/
def check_for_errors (cfg : Config) (env : Env) (errors : List String) :
    List String × Option String :=
  match check_lighthouse_health cfg env errors with
  | (errs, some e) => (errs, some e)
  | (errs, none) =>
    match check_sync_status cfg env errs with
    | (errs2, some e) => (errs2, some e)
    | (errs2, none) => check_peer_count cfg env errs2

/-- Lines 86-91: one poll cycle starts from a fresh empty list, runs the
checks under `try`, and appends `"Heartbeat error: <e>"` to the same list when
an exception was raised.  The result is the cycle report. -/
def pollCycle (cfg : Config) (env : Env) : List String :=
  match check_for_errors cfg env [] with
  | (errs, some e) => errs ++ ["Heartbeat error: " ++ e]
  | (errs, none) => errs

/-- Lines 95-97: the message starts with the fixed header and the loop appends
one `"- <error>\n"` line per problem, in report order. -/
def formatMessage (errors : List String) : String :=
  errors.foldl (fun message error => message ++ "- " ++ error ++ "\n")
    "Trouble in paradise:\n\n"

/-- Lines 93-101: the `bot.send_message(chat_id, message)` calls made in one
cycle, each as a `(destination, text)` pair — one call when the report is
non-empty, none when it is empty. -/
def cycleDispatches (cfg : Config) (env : Env) : List (String × String) :=
  let errors := pollCycle cfg env
  if errors.length > 0 then [(cfg.chat_id, formatMessage errors)] else []

/-- Lines 78-103, `main()`: after loading the configuration, the quote check
on the API token runs before the first cycle; `main_run` gives the per-cycle
outcome (report and dispatch calls) for a finite prefix of cycles, or the
startup error when the token check fails. -/
def main_run (cfg : Config) (envs : List Env) :
    Except String (List (List String × List (String × String))) :=
  if pyStartswith cfg.api_token "\"" then
    Except.error "Telgram API token has quotes, remove them"
  else
    Except.ok (envs.map (fun env => (pollCycle cfg env, cycleDispatches cfg env)))

/-- Observable effects of one iteration of the supervisor loop (lines
105-112): the exception printed, the back-off slept, and the configuration the
restarted `main()` loaded (line 79 re-reads it on every attempt). -/
structure SupObs where
  logged : String
  backoffSeconds : Nat
  configUsed : Config

/-- Lines 105-112: `while True: try: asyncio.run(main()) except Exception: ...`.
`main()` has no normal return (its body is an unconditional `while True`), so
attempt `i` ends with the exception `mainExc (load i)` raised by `main` run
against the configuration `load i` freshly read at that attempt; the
supervisor prints it, sleeps 10 seconds, and starts attempt `i+1`.
`supervisor_attempts load mainExc n` is the list of the first `n` completed
supervisor iterations. -/
def supervisor_attempts (load : Nat → Config) (mainExc : Config → String) :
    Nat → List SupObs
  | 0 => []
  | Nat.succ n =>
    supervisor_attempts load mainExc n ++ [⟨mainExc (load n), 10, load n⟩]

/-- Rendering of the report as the dispatched bullet list, one "- " prefixed
line per problem, in order (closed form of the loop in lines 96-97). -/
def bulletLines : List String → String
  | [] => ""
  | e :: rest => "- " ++ e ++ "\n" ++ bulletLines rest

/-- A well-formed configuration used by the concrete scenarios: bounds 10/100,
sync tolerance 5, as in the example scenario of the specification. -/
def cfgMain : Config :=
  { endpoint := "http://localhost:5052"
    sync_tolerance := "5"
    min_peer_count := "10"
    max_peer_count := "100"
    api_token := "token123"
    chat_id := "12345"
    poll_interval_seconds := "60" }

/-- The same configuration with the API token wrapped in literal quotes. -/
def cfgQuoted : Config := { cfgMain with api_token := "\"token123\"" }

/-- Health payload reporting 97.3 percent memory usage. -/
def healthBody973 : JVal :=
  jobj [("data", jobj [("sys_virt_mem_percent", jfloat (973 / 10))])]

/-- Health payload reporting 50.0 percent memory usage (below the alarm). -/
def healthBody50 : JVal :=
  jobj [("data", jobj [("sys_virt_mem_percent", jfloat 50)])]

/-- Sync payload with the distance as a JSON integer, as the specification
declares the interface (`sync_distance: int`); not syncing, not offline. -/
def syncBodyIntDist (opt : Bool) : JVal :=
  jobj [("data", jobj [("sync_distance", jint 0), ("is_syncing", jbool false),
    ("is_optimistic", jbool opt), ("el_offline", jbool false)])]

/-- Fully healthy sync payload with the distance as a JSON string "0". -/
def syncBodyStr : JVal :=
  jobj [("data", jobj [("sync_distance", jstr "0"), ("is_syncing", jbool false),
    ("is_optimistic", jbool false), ("el_offline", jbool false)])]

/-- Peer-count payload with the given connected count. -/
def peersBody (n : Int) : JVal := jobj [("data", jobj [("connected", jint n)])]

/-- The exact environment of the specification example scenario: memory 97.3,
healthy sync payload (distance 0 as a JSON integer), 40 peers. -/
def envC1 : Env :=
  ⟨Except.ok ⟨200, healthBody973⟩, Except.ok ⟨200, syncBodyIntDist false⟩,
    Except.ok ⟨200, peersBody 40⟩⟩

/-- Environment exercising only the health check (memory 97.3). -/
def envC2 : Env :=
  ⟨Except.ok ⟨200, healthBody973⟩, Except.error "unused", Except.error "unused"⟩

/-- Healthy memory and sync, peer-count endpoint answering HTTP 500. -/
def envC3 : Env :=
  ⟨Except.ok ⟨200, healthBody50⟩, Except.ok ⟨200, syncBodyStr⟩,
    Except.ok ⟨500, jnull⟩⟩

/-- Healthy memory; sync payload not syncing, distance 0 (integer), optimistic
flag set; healthy peers. -/
def envC5 : Env :=
  ⟨Except.ok ⟨200, healthBody50⟩, Except.ok ⟨200, syncBodyIntDist true⟩,
    Except.ok ⟨200, peersBody 40⟩⟩

/-- Sync endpoint answering 500 (one problem collected), then the peer-count
endpoint answering 500 (raising inside the check). -/
def envC6 : Env :=
  ⟨Except.ok ⟨200, healthBody50⟩, Except.ok ⟨500, jnull⟩, Except.ok ⟨500, jnull⟩⟩

/-- Successful peer-count response with only 5 connected peers. -/
def peersRespBad : HttpResp := ⟨200, peersBody 5⟩

/-- All endpoints healthy except a peer count of 5, below the minimum of 10. -/
def envBad : Env :=
  ⟨Except.ok ⟨200, healthBody50⟩, Except.ok ⟨200, syncBodyStr⟩,
    Except.ok peersRespBad⟩

/-- Every endpoint healthy: the cycle report is empty. -/
def envOK : Env :=
  ⟨Except.ok ⟨200, healthBody50⟩, Except.ok ⟨200, syncBodyStr⟩,
    Except.ok ⟨200, peersBody 40⟩⟩

/-- Closed form of the message-building loop of lines 96-97: folding the
bullet-appending step over the report extends the initial string with one
"- " prefixed line per problem, in order. -/
theorem foldl_bullet (errors : List String) (init : String) :
    errors.foldl (fun message error => message ++ "- " ++ error ++ "\n") init =
      init ++ bulletLines errors := by
  induction errors generalizing init with
  | nil => simp [bulletLines]
  | cons a l ih =>
    rw [List.foldl_cons, ih]
    simp [bulletLines, String.append_assoc]

/-- The dispatched message is the fixed header followed by the bullet lines. -/
theorem formatMessage_eq (errors : List String) :
    formatMessage errors = "Trouble in paradise:\n\n" ++ bulletLines errors :=
  foldl_bullet errors "Trouble in paradise:\n\n"

/-- C1: in the example scenario (memory 97.3, healthy sync payload with the
distance as a JSON integer 0, 40 peers within bounds 10/100) the claim expects
the report ["Memory usage at 97.3%"] with one dispatch of that bullet.  The
code instead produces a single heartbeat-error entry: line 22 rebinds the
shared list so the memory problem is discarded, and line 50 compares the
integer sync distance with the unconverted tolerance string, raising
TypeError; the one dispatch made carries the heartbeat bullet. -/
theorem c1_example_scenario_report :
    pollCycle cfgMain envC1 =
      ["Heartbeat error: TypeError: unsupported operand types for >"] ∧
    pollCycle cfgMain envC1 ≠ ["Memory usage at 97.3%"] ∧
    cycleDispatches cfgMain envC1 =
      [("12345",
        "Trouble in paradise:\n\n- Heartbeat error: TypeError: unsupported operand types for >\n")] :=
  ⟨rfl, by decide, rfl⟩

/-- C2: the claim says a successful health response with memory above 95.0
contributes exactly one "Memory usage at <value>%" problem.  Because line 22
rebinds `errors` to a fresh local list, the memory check never changes the
caller's report in any case; in particular on the payload reporting 97.3 it
contributes nothing. -/
theorem c2_memory_check_never_reports :
    (∀ (cfg : Config) (env : Env) (errors : List String),
      (check_lighthouse_health cfg env errors).1 = errors) ∧
    check_lighthouse_health cfgMain envC2 [] = ([], none) := by
  constructor
  · intro cfg env errors
    unfold check_lighthouse_health
    rcases env.health with e | resp
    · rfl
    · dsimp only
      split
      · split <;> rfl
      · rfl
  · rfl

/-- C3: the claim expects a generic endpoint-error problem naming the
peer-count path and status 500 when that endpoint answers HTTP 500, with the
other two checks unaffected.  Line 71 interpolates the undefined name
`lh_health`, so the check raises NameError instead; the cycle report carries a
heartbeat-error entry, not the claimed endpoint-error string. -/
theorem c3_peer_count_error_path :
    check_peer_count cfgMain envC3 [] =
      ([], some "NameError: name lh_health is not defined") ∧
    pollCycle cfgMain envC3 =
      ["Heartbeat error: NameError: name lh_health is not defined"] ∧
    pollCycle cfgMain envC3 ≠ ["Error from /eth/v1/node/peer_count: 500"] :=
  ⟨rfl, rfl, by decide⟩

/-- C4: for every successful peer-count response whose connected count parses
to p, with configured bounds parsing to minP and maxP, the check appends
"Bad peer count: <p>" exactly when p < minP or p > maxP, and appends nothing
when minP ≤ p ≤ maxP. -/
theorem c4_peer_count_flag_iff (cfg : Config) (env : Env) (errors : List String)
    (resp : HttpResp) (data connected : JVal) (p minP maxP : Int)
    (hresp : env.peers = Except.ok resp) (hok : resp.ok = true)
    (hdata : pyIndex resp.body "data" = Except.ok data)
    (hconn : pyIndex data "connected" = Except.ok connected)
    (hp : pyInt connected = Except.ok p)
    (hmin : pyIntStr cfg.min_peer_count = Except.ok minP)
    (hmax : pyIntStr cfg.max_peer_count = Except.ok maxP) :
    check_peer_count cfg env errors =
      if p < minP ∨ p > maxP then
        (errors ++ ["Bad peer count: " ++ toString p], none)
      else (errors, none) := by
  simp only [check_peer_count, hresp, hok, hdata, hconn, hp, hmin, hmax, if_true]

/-- Witness for C4 at a concrete input: 5 connected peers with bounds 10/100
are out of range, so the problem is appended. -/
theorem c4_peer_count_flag_iff_witness :
    check_peer_count cfgMain envBad [] =
      (if (5 : Int) < 10 ∨ (5 : Int) > 100 then
        (([] : List String) ++ ["Bad peer count: " ++ toString (5 : Int)], none)
      else ([], none)) :=
  c4_peer_count_flag_iff cfgMain envBad [] peersRespBad
    (jobj [("connected", jint 5)]) (jint 5) 5 10 100 rfl rfl rfl rfl rfl rfl rfl

/-- C5: the claim expects the priority chain to emit the synced-optimistically
problem when the node is not syncing, the distance does not exceed the
tolerance, and the optimistic flag is set.  With the distance arriving as the
JSON integer 0 (the payload type the specification declares) and tolerance
"5", line 50 compares an int with the unconverted configuration string and
raises TypeError, so the check emits nothing and the cycle reports a
heartbeat error instead of the optimistic problem. -/
theorem c5_sync_check_raises_on_optimistic_payload :
    check_sync_status cfgMain envC5 [] =
      ([], some "TypeError: unsupported operand types for >") ∧
    pollCycle cfgMain envC5 =
      ["Heartbeat error: TypeError: unsupported operand types for >"] ∧
    pollCycle cfgMain envC5 ≠ ["Lighthouse synced optimistically"] :=
  ⟨rfl, rfl, by decide⟩

/-- C6: whenever the check sequence raises, the cycle absorbs the exception:
the report is exactly the problems collected before the raise followed by the
single synthetic entry "Heartbeat error: <cause>". -/
theorem c6_heartbeat_error_absorbed (cfg : Config) (env : Env) (e : String)
    (h : (check_for_errors cfg env []).2 = some e) :
    pollCycle cfg env =
      (check_for_errors cfg env []).1 ++ ["Heartbeat error: " ++ e] := by
  rcases hck : check_for_errors cfg env [] with ⟨errs, exc⟩
  rw [hck] at h
  simp only at h
  subst h
  unfold pollCycle
  rw [hck]

/-- Witness for C6: sync endpoint down (one problem collected), then the
peer-count check raises; the report keeps the collected problem and gains one
heartbeat entry. -/
theorem c6_heartbeat_error_absorbed_witness :
    pollCycle cfgMain envC6 =
      (check_for_errors cfgMain envC6 []).1 ++
        ["Heartbeat error: " ++ "NameError: name lh_health is not defined"] :=
  c6_heartbeat_error_absorbed cfgMain envC6
    "NameError: name lh_health is not defined" rfl

/-- C7: each cycle dispatches exactly one message when its report is
non-empty and none when it is empty, and the message is the fixed header
followed by each problem as a "- " prefixed line in report order. -/
theorem c7_dispatch_once_and_message_format (cfg : Config) (env : Env)
    (errs : List String) (h : pollCycle cfg env = errs) :
    cycleDispatches cfg env =
      if errs.length > 0 then
        [(cfg.chat_id, "Trouble in paradise:\n\n" ++ bulletLines errs)]
      else [] := by
  subst h
  simp only [cycleDispatches, formatMessage_eq]

/-- Witness for C7 at a concrete input: a report with one bad-peer-count
problem produces exactly one dispatch with the header and that bullet. -/
theorem c7_dispatch_once_and_message_format_witness :
    cycleDispatches cfgMain envBad =
      if (["Bad peer count: 5"] : List String).length > 0 then
        [(cfgMain.chat_id, "Trouble in paradise:\n\n" ++ bulletLines ["Bad peer count: 5"])]
      else [] :=
  c7_dispatch_once_and_message_format cfgMain envBad ["Bad peer count: 5"] rfl

/-- C8: the first n supervisor iterations are exactly n restarts: iteration i
logs the exception raised by the i-th run of main, backs off 10 seconds, and
the restarted main re-reads the configuration (load i is the configuration
read at attempt i); the list has length n for every n, so no retry bound
exists and the process never terminates after such an exception. -/
theorem c8_supervisor_restarts_forever (load : Nat → Config)
    (mainExc : Config → String) (n : Nat) :
    supervisor_attempts load mainExc n =
      (List.range n).map (fun i => SupObs.mk (mainExc (load i)) 10 (load i)) ∧
    (supervisor_attempts load mainExc n).length = n := by
  have hmain : ∀ m, supervisor_attempts load mainExc m =
      (List.range m).map (fun i => SupObs.mk (mainExc (load i)) 10 (load i)) := by
    intro m
    induction m with
    | zero => rfl
    | succ k ih => simp [supervisor_attempts, ih, List.range_succ]
  refine ⟨hmain n, ?_⟩
  rw [hmain n]
  simp

/-- C9: a configuration whose API token is wrapped in literal quote
characters makes main raise the descriptive startup error before any poll
cycle runs, so no cycle output and no dispatch is ever produced. -/
theorem c9_quoted_token_rejected_at_startup (cfg : Config) (envs : List Env)
    (h1 : pyStartswith cfg.api_token "\"" = true)
    (h2 : pyEndswith cfg.api_token "\"" = true) :
    main_run cfg envs = Except.error "Telgram API token has quotes, remove them" := by
  simp [main_run, h1]

/-- Witness for C9 at a concrete input: the quoted token is rejected at
startup. -/
theorem c9_quoted_token_rejected_at_startup_witness :
    main_run cfgQuoted [] = Except.error "Telgram API token has quotes, remove them" :=
  c9_quoted_token_rejected_at_startup cfgQuoted [] rfl rfl

/-- C10: the cycle report and the dispatch decision are functions of the
configuration and the three endpoint responses alone: equal inputs give equal
report and equal dispatches. -/
theorem c10_cycle_deterministic (cfg1 cfg2 : Config) (env1 env2 : Env)
    (hc : cfg1 = cfg2) (he : env1 = env2) :
    pollCycle cfg1 env1 = pollCycle cfg2 env2 ∧
    cycleDispatches cfg1 env1 = cycleDispatches cfg2 env2 := by
  subst hc
  subst he
  exact ⟨rfl, rfl⟩

/-- Witness for C10 at a concrete input. -/
theorem c10_cycle_deterministic_witness :
    pollCycle cfgMain envOK = pollCycle cfgMain envOK ∧
    cycleDispatches cfgMain envOK = cycleDispatches cfgMain envOK :=
  c10_cycle_deterministic cfgMain cfgMain envOK envOK rfl rfl
